import Mathlib

/-!
Verification of the geofence evaluation engine of the capstone app.

The definitions below are a shallow embedding of the geofence screen logic
(`haversineDistance`, `checkGeofenceStatus`, `fetchLocationAndGeofenceData`):
JavaScript numbers are modelled as real numbers, the pair of React state cells
`geofenceStatus` / `previousGeofenceStatus` as an explicit `GeofenceState`
threaded through the evaluation, calls to
`Notifications.scheduleNotificationAsync` as a list of emitted
`GeofenceEvent`s, and calls to `Alert.alert` as a list of (title, message)
pairs.  The Firebase reads are modelled as an `Except`-valued input: the
`Promise.all` either yields both snapshots or throws.
-/

namespace Capstone

open Real

/-- A latitude/longitude pair in degrees, as consumed by `haversineDistance`. -/
structure Coord where
  latitude : ℝ
  longitude : ℝ

/-- The `ChildLocation` record of the source. -/
structure ChildLocation where
  latitude : ℝ
  longitude : ℝ
  timestamp : ℤ

/-- The `Geofence` record of the source. -/
structure Geofence where
  id : String
  name : String
  center : Coord
  radius : ℝ
  isActive : Bool
  createdAt : ℤ

/-- JavaScript `Math.atan2 y x`: the angle of the point `(x, y)`, in `(-π, π]`. -/
noncomputable def atan2 (y x : ℝ) : ℝ :=
  if 0 < x then arctan (y / x)
  else if x < 0 then
    (if 0 ≤ y then arctan (y / x) + π else arctan (y / x) - π)
  else if 0 < y then π / 2
  else if y < 0 then -(π / 2)
  else 0

/-- `toRad` helper of `haversineDistance`: degrees to radians. -/
noncomputable def toRad (x : ℝ) : ℝ := x * π / 180

/-- The intermediate value `a` computed inside `haversineDistance`
(the haversine of the central angle). -/
noncomputable def haversineIntermediate (coords1 coords2 : Coord) : ℝ :=
  sin ((toRad coords2.latitude - toRad coords1.latitude) / 2) *
    sin ((toRad coords2.latitude - toRad coords1.latitude) / 2) +
  cos (toRad coords1.latitude) * cos (toRad coords2.latitude) *
    sin ((toRad coords2.longitude - toRad coords1.longitude) / 2) *
    sin ((toRad coords2.longitude - toRad coords1.longitude) / 2)

/-- `haversineDistance` of the source: great-circle distance in meters between
two degree coordinates, on a sphere of radius 6371e3 m. -/
noncomputable def haversineDistance (coords1 coords2 : Coord) : ℝ :=
  let R : ℝ := 6371e3
  let a := haversineIntermediate coords1 coords2
  let c := 2 * atan2 (sqrt a) (sqrt (1 - a))
  R * c

/-- The status enum `'inside' | 'outside' | 'unknown'`. -/
inductive Status where
  | inside
  | outside
  | unknown
deriving DecidableEq

/-- The two React state cells read and written by `checkGeofenceStatus`. -/
structure GeofenceState where
  geofenceStatus : Status
  previousGeofenceStatus : Status
deriving DecidableEq

/-- A scheduled notification: `entered` carries the `geofenceName` field of the
notification payload (`enteredGeofenceName`, a nullable string). -/
inductive GeofenceEvent where
  | entered (geofenceName : Option String)
  | exited
deriving DecidableEq

/-- The containment loop of `checkGeofenceStatus`: scan the supplied list in
order and stop at the first zone that is active and contains the location
(`distance <= geofence.radius`, inclusive).  Returns that zone, if any. -/
noncomputable def firstContainedZone (childLoc : ChildLocation) :
    List Geofence → Option Geofence
  | [] => none
  | geofence :: rest =>
      if geofence.isActive = true ∧
          haversineDistance ⟨childLoc.latitude, childLoc.longitude⟩ geofence.center
            ≤ geofence.radius then
        some geofence
      else firstContainedZone childLoc rest

/-- `checkGeofenceStatus` of the source.  Input: the child location (null or
present), the geofence list as passed by the caller (note: the callers pass the
full loaded list, not a pre-filtered active list), and the current React state.
Output: the updated state and the list of scheduled notifications. -/
noncomputable def checkGeofenceStatus (childLoc : Option ChildLocation)
    (activeGeofences : List Geofence) (state : GeofenceState) :
    GeofenceState × List GeofenceEvent :=
  match childLoc with
  | none => (⟨Status.unknown, Status.unknown⟩, [])
  | some loc =>
    if activeGeofences.length = 0 then
      (⟨Status.unknown, Status.unknown⟩, [])
    else
      let found := firstContainedZone loc activeGeofences
      let currentStatus : Status :=
        match found with
        | some _ => Status.inside
        | none => Status.outside
      let enteredGeofenceName : Option String :=
        match found with
        | some g => some g.name
        | none => none
      let events : List GeofenceEvent :=
        if state.previousGeofenceStatus ≠ Status.unknown then
          if currentStatus = Status.inside ∧
              state.previousGeofenceStatus = Status.outside then
            [GeofenceEvent.entered enteredGeofenceName]
          else if currentStatus = Status.outside ∧
              state.previousGeofenceStatus = Status.inside then
            [GeofenceEvent.exited]
          else []
        else []
      (⟨currentStatus, currentStatus⟩, events)

/-- The React state cells touched by `fetchLocationAndGeofenceData` (map/region
fields and timestamps, which the geofence logic never reads, are omitted). -/
structure AppState where
  childLocation : Option ChildLocation
  geofences : List Geofence
  geofenceState : GeofenceState
  debugInfo : String
  loading : Bool
  isRefreshing : Bool

/-- Outcome of one run of the async cycle as seen by its caller: the promise
either resolves normally (carrying the final state, the alerts shown and the
notifications scheduled) or rejects with an uncaught error. -/
inductive CycleResult where
  | resolved (state : AppState) (alerts : List (String × String))
      (events : List GeofenceEvent)
  | rejected (error : String)

/-- `fetchLocationAndGeofenceData` of the source.  The Firebase `Promise.all`
is modelled as the input: either an error, or the pair of snapshots (location
snapshot, geofences snapshot), each `none` when `snapshot.exists()` is false.
The `try`/`catch` turns any fetch error into a `Connection Error` alert and a
normal resolution; the `finally` clears `loading` and `isRefreshing`. -/
noncomputable def fetchLocationAndGeofenceData
    (fetched : Except String (Option ChildLocation × Option (List Geofence)))
    (s : AppState) : CycleResult :=
  match fetched with
  | Except.error e =>
      CycleResult.resolved
        { s with debugInfo := "Error: " ++ e, loading := false,
                 isRefreshing := false }
        [("Connection Error",
          "Unable to retrieve data. Please check your internet connection.")]
        []
  | Except.ok (locSnap, geoSnap) =>
      let locAlerts : List (String × String) :=
        match locSnap with
        | some _ => []
        | none =>
            if s.loading then
              [("No Location Data",
                "No location data available for your child. Please check if their device is connected.")]
            else []
      let debug : String :=
        match locSnap with
        | some _ => "Location data loaded successfully"
        | none => "No child location data"
      let loadedGeofences : List Geofence := geoSnap.getD []
      let checked := checkGeofenceStatus locSnap loadedGeofences s.geofenceState
      CycleResult.resolved
        { s with childLocation := locSnap, geofences := loadedGeofences,
                 geofenceState := checked.1, debugInfo := debug,
                 loading := false, isRefreshing := false }
        locAlerts checked.2

/-- Initial state of the two status cells: both `useState('unknown')`. -/
def initialState : GeofenceState := ⟨Status.unknown, Status.unknown⟩

/-- A concrete child location at the origin. -/
def loc0 : ChildLocation := ⟨0, 0, 0⟩

/-- An active zone of radius 100 m centered at the origin. -/
def zoneAt0 : Geofence := ⟨"idA", "A", ⟨0, 0⟩, 100, true, 0⟩

/-- A second active zone of radius 100 m centered at the origin. -/
def zoneB0 : Geofence := ⟨"idB", "B", ⟨0, 0⟩, 100, true, 0⟩

/-- A deactivated zone of radius 100 m centered at the origin. -/
def zoneInactive0 : Geofence := ⟨"idZ", "Z", ⟨0, 0⟩, 100, false, 0⟩

/-- A malformed zone: negative radius, otherwise well-formed and active. -/
def badZone0 : Geofence := ⟨"idBad", "Bad", ⟨0, 0⟩, -5, true, 0⟩

/-- A concrete app state whose tracker currently reads Inside. -/
def appState0 : AppState :=
  { childLocation := some loc0, geofences := [zoneAt0],
    geofenceState := ⟨Status.inside, Status.inside⟩, debugInfo := "",
    loading := false, isRefreshing := false }

/-! ### Helper lemmas: `atan2` and `haversineDistance` -/

theorem atan2_zero_one : atan2 0 1 = 0 := by
  unfold atan2
  rw [if_pos one_pos]
  norm_num [Real.arctan_zero]

theorem atan2_nonneg (y x : ℝ) (hy : 0 ≤ y) : 0 ≤ atan2 y x := by
  unfold atan2
  by_cases h1 : 0 < x
  · rw [if_pos h1]
    have h := Real.arctan_strictMono.monotone (div_nonneg hy h1.le)
    rwa [Real.arctan_zero] at h
  · rw [if_neg h1]
    by_cases h2 : x < 0
    · rw [if_pos h2, if_pos hy]
      have hπ := Real.pi_pos
      have h := Real.neg_pi_div_two_lt_arctan (y / x)
      linarith
    · rw [if_neg h2]
      by_cases h4 : 0 < y
      · rw [if_pos h4]
        have hπ := Real.pi_pos
        linarith
      · rw [if_neg h4, if_neg (not_lt.mpr hy)]

theorem sin_mul_self_eq (u : ℝ) : sin u * sin u = (1 - cos (2 * u)) / 2 := by
  have h1 := Real.sin_sq_add_cos_sq u
  have h2 := Real.cos_two_mul u
  nlinarith [h1, h2]

theorem hav_bound_aux (p q r : ℝ) :
    0 ≤ sin ((q - p) / 2) * sin ((q - p) / 2) +
          cos p * cos q * sin (r / 2) * sin (r / 2) ∧
      sin ((q - p) / 2) * sin ((q - p) / 2) +
          cos p * cos q * sin (r / 2) * sin (r / 2) ≤ 1 := by
  have hs1 : sin ((q - p) / 2) * sin ((q - p) / 2) = (1 - cos (q - p)) / 2 := by
    have h := sin_mul_self_eq ((q - p) / 2)
    rw [show 2 * ((q - p) / 2) = q - p from by ring] at h
    exact h
  have hs2 : sin (r / 2) * sin (r / 2) = (1 - cos r) / 2 := by
    have h := sin_mul_self_eq (r / 2)
    rw [show 2 * (r / 2) = r from by ring] at h
    exact h
  have hc := Real.cos_sub q p
  have h1 := Real.sin_sq_add_cos_sq p
  have h2 := Real.sin_sq_add_cos_sq q
  have hr1 := Real.cos_le_one r
  have hr2 := Real.neg_one_le_cos r
  constructor
  · nlinarith [sq_nonneg (sin p - sin q), sq_nonneg (cos p * cos r - cos q),
      mul_nonneg (mul_nonneg (sq_nonneg (cos p)) (by linarith : (0:ℝ) ≤ 1 - cos r))
        (by linarith : (0:ℝ) ≤ 1 + cos r)]
  · nlinarith [sq_nonneg (sin p + sin q), sq_nonneg (cos p * cos r + cos q),
      mul_nonneg (mul_nonneg (sq_nonneg (cos p)) (by linarith : (0:ℝ) ≤ 1 - cos r))
        (by linarith : (0:ℝ) ≤ 1 + cos r)]

theorem haversineIntermediate_bounds (a b : Coord) :
    0 ≤ haversineIntermediate a b ∧ haversineIntermediate a b ≤ 1 := by
  unfold haversineIntermediate
  exact hav_bound_aux (toRad a.latitude) (toRad b.latitude)
    (toRad b.longitude - toRad a.longitude)

theorem haversineDistance_nonneg (a b : Coord) : 0 ≤ haversineDistance a b := by
  simp only [haversineDistance]
  have h := atan2_nonneg (sqrt (haversineIntermediate a b))
    (sqrt (1 - haversineIntermediate a b)) (Real.sqrt_nonneg _)
  have : (0:ℝ) ≤ 6371e3 := by norm_num
  nlinarith [h]

theorem haversineDistance_self (a : Coord) : haversineDistance a a = 0 := by
  simp only [haversineDistance, haversineIntermediate]
  simp [sub_self, Real.sin_zero, Real.sqrt_zero, Real.sqrt_one, atan2_zero_one]

theorem haversineDistance_symm (a b : Coord) :
    haversineDistance a b = haversineDistance b a := by
  have hs : ∀ x y : ℝ, sin ((x - y) / 2) = -sin ((y - x) / 2) := by
    intro x y
    have h : (x - y) / 2 = -((y - x) / 2) := by ring
    rw [h, Real.sin_neg]
  have key : haversineIntermediate a b = haversineIntermediate b a := by
    unfold haversineIntermediate
    rw [hs (toRad b.latitude) (toRad a.latitude),
      hs (toRad b.longitude) (toRad a.longitude)]
    ring
  simp only [haversineDistance, key]

/-! ### Helper lemmas: the containment scan -/

theorem firstContainedZone_cons (loc : ChildLocation) (z : Geofence)
    (rest : List Geofence) :
    firstContainedZone loc (z :: rest) =
      if z.isActive = true ∧
          haversineDistance ⟨loc.latitude, loc.longitude⟩ z.center ≤ z.radius then
        some z
      else firstContainedZone loc rest := rfl

theorem firstContainedZone_isSome_iff (loc : ChildLocation)
    (zones : List Geofence) :
    (∃ g, firstContainedZone loc zones = some g) ↔
      ∃ g ∈ zones, g.isActive = true ∧
        haversineDistance ⟨loc.latitude, loc.longitude⟩ g.center ≤ g.radius := by
  induction zones with
  | nil =>
    constructor
    · rintro ⟨g, hg⟩
      simp [firstContainedZone] at hg
    · rintro ⟨g, hg, _⟩
      simp at hg
  | cons z rest ih =>
    rw [firstContainedZone_cons]
    by_cases h : z.isActive = true ∧
        haversineDistance ⟨loc.latitude, loc.longitude⟩ z.center ≤ z.radius
    · rw [if_pos h]
      constructor
      · intro _
        exact ⟨z, List.mem_cons_self z rest, h.1, h.2⟩
      · intro _
        exact ⟨z, rfl⟩
    · rw [if_neg h, ih]
      constructor
      · rintro ⟨g, hg, ha, hd⟩
        exact ⟨g, List.mem_cons_of_mem z hg, ha, hd⟩
      · rintro ⟨g, hg, ha, hd⟩
        rcases List.mem_cons.mp hg with rfl | hg'
        · exact absurd ⟨ha, hd⟩ h
        · exact ⟨g, hg', ha, hd⟩

theorem firstContainedZone_append (loc : ChildLocation) (l1 : List Geofence)
    (g : Geofence) (l2 : List Geofence)
    (hl1 : ∀ g' ∈ l1, ¬(g'.isActive = true ∧
      haversineDistance ⟨loc.latitude, loc.longitude⟩ g'.center ≤ g'.radius))
    (ha : g.isActive = true)
    (hd : haversineDistance ⟨loc.latitude, loc.longitude⟩ g.center ≤ g.radius) :
    firstContainedZone loc (l1 ++ g :: l2) = some g := by
  induction l1 with
  | nil =>
    rw [List.nil_append, firstContainedZone_cons, if_pos ⟨ha, hd⟩]
  | cons z rest ih =>
    rw [List.cons_append, firstContainedZone_cons,
      if_neg (hl1 z (List.mem_cons_self z rest))]
    exact ih fun g' hg' => hl1 g' (List.mem_cons_of_mem z hg')

theorem firstContainedZone_none_of_inactive (loc : ChildLocation)
    (zones : List Geofence) (h : ∀ g ∈ zones, g.isActive = false) :
    firstContainedZone loc zones = none := by
  induction zones with
  | nil => rfl
  | cons z rest ih =>
    rw [firstContainedZone_cons, if_neg]
    · exact ih fun g hg => h g (List.mem_cons_of_mem z hg)
    · rintro ⟨hc1, -⟩
      rw [h z (List.mem_cons_self z rest)] at hc1
      exact Bool.false_ne_true hc1

theorem firstContainedZone_skip_neg_radius (loc : ChildLocation)
    (l1 l2 : List Geofence) (bad : Geofence) (hbad : bad.radius < 0) :
    firstContainedZone loc (l1 ++ bad :: l2) =
      firstContainedZone loc (l1 ++ l2) := by
  induction l1 with
  | nil =>
    rw [List.nil_append, List.nil_append, firstContainedZone_cons, if_neg]
    rintro ⟨-, hd⟩
    have h0 := haversineDistance_nonneg ⟨loc.latitude, loc.longitude⟩ bad.center
    linarith
  | cons z rest ih =>
    rw [List.cons_append, List.cons_append, firstContainedZone_cons,
      firstContainedZone_cons]
    by_cases h : z.isActive = true ∧
        haversineDistance ⟨loc.latitude, loc.longitude⟩ z.center ≤ z.radius
    · rw [if_pos h, if_pos h]
    · rw [if_neg h, if_neg h]
      exact ih

/-! ### Helper lemmas: the evaluation step -/

theorem checkGeofenceStatus_noLoc (zones : List Geofence) (s : GeofenceState) :
    checkGeofenceStatus none zones s = (⟨Status.unknown, Status.unknown⟩, []) :=
  rfl

theorem checkGeofenceStatus_nilZones (loc : ChildLocation) (s : GeofenceState) :
    checkGeofenceStatus (some loc) [] s =
      (⟨Status.unknown, Status.unknown⟩, []) := rfl

theorem checkGeofenceStatus_found (loc : ChildLocation) (zones : List Geofence)
    (s : GeofenceState) (g : Geofence) (hz : zones ≠ [])
    (hf : firstContainedZone loc zones = some g) :
    checkGeofenceStatus (some loc) zones s =
      (⟨Status.inside, Status.inside⟩,
        if s.previousGeofenceStatus = Status.outside then
          [GeofenceEvent.entered (some g.name)]
        else []) := by
  have hlen : ¬ zones.length = 0 := by simpa using hz
  simp only [checkGeofenceStatus, hf]
  rw [if_neg hlen]
  cases hp : s.previousGeofenceStatus <;> simp [hp]

theorem checkGeofenceStatus_notFound (loc : ChildLocation)
    (zones : List Geofence) (s : GeofenceState) (hz : zones ≠ [])
    (hf : firstContainedZone loc zones = none) :
    checkGeofenceStatus (some loc) zones s =
      (⟨Status.outside, Status.outside⟩,
        if s.previousGeofenceStatus = Status.inside then
          [GeofenceEvent.exited]
        else []) := by
  have hlen : ¬ zones.length = 0 := by simpa using hz
  simp only [checkGeofenceStatus, hf]
  rw [if_neg hlen]
  cases hp : s.previousGeofenceStatus <;> simp [hp]

theorem firstContainedZone_loc0_zoneAt0 :
    firstContainedZone loc0 [zoneAt0] = some zoneAt0 := by
  rw [firstContainedZone_cons, if_pos]
  refine ⟨rfl, ?_⟩
  have hc : (⟨loc0.latitude, loc0.longitude⟩ : Coord) = zoneAt0.center := rfl
  rw [hc, haversineDistance_self]
  show (0:ℝ) ≤ zoneAt0.radius
  norm_num [zoneAt0]

/-- An active zone of radius 0 m centered at the origin (boundary case). -/
def zoneR0 : Geofence := ⟨"idR0", "R0", ⟨0, 0⟩, 0, true, 0⟩

/-! ### Claim theorems -/

/-- C8: the great-circle distance function is symmetric and returns zero on
identical inputs: `haversineDistance a b = haversineDistance b a` for every
pair of coordinates, and `haversineDistance a a = 0`. -/
theorem haversineDistance_symm_and_zero_self :
    (∀ a b : Coord, haversineDistance a b = haversineDistance b a) ∧
      (∀ a : Coord, haversineDistance a a = 0) :=
  ⟨haversineDistance_symm, haversineDistance_self⟩

/-- C9: the intermediate value of `haversineDistance` whose square roots are
passed to `atan2` lies in the interval [0,1] for every pair of coordinates in
exact real arithmetic, so both square-root arguments are nonnegative and no
domain error can occur.  (The source performs no explicit clamp; over the
reals the value is already within [0,1], so a clamp would be the identity.) -/
theorem haversineIntermediate_in_unit_interval :
    (∀ c1 c2 : Coord,
      haversineDistance c1 c2 =
        6371e3 * (2 * atan2 (sqrt (haversineIntermediate c1 c2))
          (sqrt (1 - haversineIntermediate c1 c2)))) ∧
      (∀ c1 c2 : Coord, 0 ≤ haversineIntermediate c1 c2) ∧
      (∀ c1 c2 : Coord, haversineIntermediate c1 c2 ≤ 1) :=
  ⟨fun _ _ => rfl, fun c1 c2 => (haversineIntermediate_bounds c1 c2).1,
    fun c1 c2 => (haversineIntermediate_bounds c1 c2).2⟩

/-- C5: the aggregate status is Inside exactly when at least one zone of the
supplied list is active and contains the location at distance ≤ radius
(inclusive boundary); in particular a location whose distance to an active
zone center equals the radius exactly yields Inside. -/
theorem insideStatus_iff_contained :
    (∀ (loc : ChildLocation) (zones : List Geofence) (s : GeofenceState),
      (checkGeofenceStatus (some loc) zones s).1.geofenceStatus =
          Status.inside ↔
        ∃ g ∈ zones, g.isActive = true ∧
          haversineDistance ⟨loc.latitude, loc.longitude⟩ g.center ≤
            g.radius) ∧
      (∀ (loc : ChildLocation) (g : Geofence) (s : GeofenceState),
        g.isActive = true →
        haversineDistance ⟨loc.latitude, loc.longitude⟩ g.center = g.radius →
        (checkGeofenceStatus (some loc) [g] s).1.geofenceStatus =
          Status.inside) := by
  constructor
  · intro loc zones s
    rcases zones with _ | ⟨z, rest⟩
    · rw [checkGeofenceStatus_nilZones]
      simp
    · cases hf : firstContainedZone loc (z :: rest) with
      | some g =>
        rw [checkGeofenceStatus_found loc _ s g (by simp) hf]
        constructor
        · intro _
          exact (firstContainedZone_isSome_iff loc (z :: rest)).mp ⟨g, hf⟩
        · intro _
          rfl
      | none =>
        rw [checkGeofenceStatus_notFound loc _ s (by simp) hf]
        constructor
        · intro h
          exact absurd h (by simp)
        · intro hex
          rcases (firstContainedZone_isSome_iff loc (z :: rest)).mpr hex with
            ⟨g, hg⟩
          rw [hf] at hg
          exact Option.noConfusion hg
  · intro loc g s ha hd
    have hf : firstContainedZone loc [g] = some g := by
      rw [firstContainedZone_cons, if_pos ⟨ha, le_of_eq hd⟩]
    rw [checkGeofenceStatus_found loc [g] s g (by simp) hf]

/-- Witness for C5 at concrete inputs: the origin lies exactly at radius
distance (zero) from the radius-zero active zone `zoneR0`, and the evaluation
reports Inside. -/
theorem insideStatus_iff_contained_witness :
    zoneR0.isActive = true ∧
      haversineDistance ⟨loc0.latitude, loc0.longitude⟩ zoneR0.center =
        zoneR0.radius ∧
      (checkGeofenceStatus (some loc0) [zoneR0] initialState).1.geofenceStatus =
        Status.inside := by
  have ha : zoneR0.isActive = true := rfl
  have hd : haversineDistance ⟨loc0.latitude, loc0.longitude⟩ zoneR0.center =
      zoneR0.radius := by
    have hc : (⟨loc0.latitude, loc0.longitude⟩ : Coord) = zoneR0.center := rfl
    rw [hc, haversineDistance_self]
    rfl
  exact ⟨ha, hd, insideStatus_iff_contained.2 loc0 zoneR0 initialState ha hd⟩

/-- Counterexample to C1 as stated: with the device inside the single zone and
that zone deactivated (`isActive = false`) without the device moving, the next
evaluation does not reset to Unknown — it computes Outside and emits an Exited
event, because the callers pass the unfiltered zone list and only an empty
list (or a missing location) triggers the reset. -/
theorem deactivatedZone_fires_exited :
    checkGeofenceStatus (some loc0) [zoneInactive0]
        ⟨Status.inside, Status.inside⟩ =
      (⟨Status.outside, Status.outside⟩, [GeofenceEvent.exited]) ∧
      checkGeofenceStatus (some loc0) [zoneInactive0]
          ⟨Status.inside, Status.inside⟩ ≠
        (⟨Status.unknown, Status.unknown⟩, []) := by
  have hall : ∀ g ∈ [zoneInactive0], g.isActive = false := by
    intro g hg
    rw [List.mem_singleton] at hg
    subst hg
    rfl
  have hf := firstContainedZone_none_of_inactive loc0 [zoneInactive0] hall
  have h := checkGeofenceStatus_notFound loc0 [zoneInactive0]
    ⟨Status.inside, Status.inside⟩ (by simp) hf
  rw [h]
  constructor
  · rfl
  · simp

/-- C1 (amended): the Unknown reset (both statuses set to Unknown, no event)
happens exactly when the location is unavailable or the supplied zone list is
empty.  A non-empty list whose zones are all inactive is not reset: the status
becomes Outside, and if the previous status was Inside an Exited event is
emitted — so deactivating the only containing zone fires Exited. -/
theorem unknownReset_and_inactive_behavior :
    (∀ (loc : Option ChildLocation) (zones : List Geofence) (s : GeofenceState),
      loc = none ∨ zones = [] →
      checkGeofenceStatus loc zones s =
        (⟨Status.unknown, Status.unknown⟩, [])) ∧
      (∀ (loc : ChildLocation) (zones : List Geofence) (s : GeofenceState),
        zones ≠ [] → (∀ g ∈ zones, g.isActive = false) →
        (checkGeofenceStatus (some loc) zones s).1.geofenceStatus =
            Status.outside ∧
          (s.previousGeofenceStatus = Status.inside →
            (checkGeofenceStatus (some loc) zones s).2 =
              [GeofenceEvent.exited])) := by
  constructor
  · rintro loc zones s (rfl | rfl)
    · exact checkGeofenceStatus_noLoc zones s
    · cases loc with
      | none => exact checkGeofenceStatus_noLoc [] s
      | some l => exact checkGeofenceStatus_nilZones l s
  · intro loc zones s hz hall
    have hf := firstContainedZone_none_of_inactive loc zones hall
    rw [checkGeofenceStatus_notFound loc zones s hz hf]
    refine ⟨rfl, fun hp => ?_⟩
    simp [hp]

/-- Witness for the amended C1: a missing location resets to Unknown with no
event, and the deactivated-only-zone scenario yields the Exited event. -/
theorem unknownReset_and_inactive_behavior_witness :
    checkGeofenceStatus none [zoneAt0] initialState =
      (⟨Status.unknown, Status.unknown⟩, []) ∧
      (checkGeofenceStatus (some loc0) [zoneInactive0]
        ⟨Status.inside, Status.inside⟩).2 = [GeofenceEvent.exited] := by
  have hall : ∀ g ∈ [zoneInactive0], g.isActive = false := by
    intro g hg
    rw [List.mem_singleton] at hg
    subst hg
    rfl
  exact ⟨unknownReset_and_inactive_behavior.1 none [zoneAt0] initialState
      (Or.inl rfl),
    (unknownReset_and_inactive_behavior.2 loc0 [zoneInactive0]
      ⟨Status.inside, Status.inside⟩ (by simp) hall).2 rfl⟩

/-- C2: with a non-Unknown previous status, an Outside→Inside change emits
exactly one Entered event attributed to the first contained active zone in the
input zone order (overlapping zones later in the list do not affect the
attribution); an Inside→Outside change emits exactly one Exited event carrying
no zone name; and when the previous status equals the newly computed status no
event is emitted. -/
theorem transition_events_spec (loc : ChildLocation) (zones : List Geofence)
    (s : GeofenceState)
    (hprev : s.previousGeofenceStatus ≠ Status.unknown) :
    (∀ (l1 : List Geofence) (g : Geofence) (l2 : List Geofence),
      s.previousGeofenceStatus = Status.outside →
      zones = l1 ++ g :: l2 →
      (∀ g' ∈ l1, ¬(g'.isActive = true ∧
        haversineDistance ⟨loc.latitude, loc.longitude⟩ g'.center ≤
          g'.radius)) →
      g.isActive = true →
      haversineDistance ⟨loc.latitude, loc.longitude⟩ g.center ≤ g.radius →
      (checkGeofenceStatus (some loc) zones s).2 =
        [GeofenceEvent.entered (some g.name)]) ∧
      (s.previousGeofenceStatus = Status.inside →
        (checkGeofenceStatus (some loc) zones s).1.geofenceStatus =
          Status.outside →
        (checkGeofenceStatus (some loc) zones s).2 = [GeofenceEvent.exited]) ∧
      ((checkGeofenceStatus (some loc) zones s).1.geofenceStatus =
          s.previousGeofenceStatus →
        (checkGeofenceStatus (some loc) zones s).2 = []) := by
  refine ⟨?_, ?_, ?_⟩
  · intro l1 g l2 hout hzeq hl1 ha hd
    subst hzeq
    have hf := firstContainedZone_append loc l1 g l2 hl1 ha hd
    rw [checkGeofenceStatus_found loc _ s g (by simp) hf]
    simp [hout]
  · intro hin hout
    cases zones with
    | nil =>
      rw [checkGeofenceStatus_nilZones] at hout
      simp at hout
    | cons z rest =>
      cases hf : firstContainedZone loc (z :: rest) with
      | some g =>
        rw [checkGeofenceStatus_found loc _ s g (by simp) hf] at hout
        simp at hout
      | none =>
        rw [checkGeofenceStatus_notFound loc _ s (by simp) hf]
        simp [hin]
  · intro heq
    cases zones with
    | nil =>
      rw [checkGeofenceStatus_nilZones] at heq
      simp at heq
      exact absurd heq.symm hprev
    | cons z rest =>
      cases hf : firstContainedZone loc (z :: rest) with
      | some g =>
        rw [checkGeofenceStatus_found loc _ s g (by simp) hf] at heq ⊢
        simp at heq
        rw [← heq]
        simp
      | none =>
        rw [checkGeofenceStatus_notFound loc _ s (by simp) hf] at heq ⊢
        simp at heq
        rw [← heq]
        simp

/-- Witness for C2 at concrete inputs: from previous status Outside, at a
point inside the two overlapping active zones `zoneAt0` (first) and `zoneB0`
(second), exactly one Entered event is emitted, attributed to the first zone
of the list. -/
theorem transition_events_spec_witness :
    (checkGeofenceStatus (some loc0) [zoneAt0, zoneB0]
      ⟨Status.outside, Status.outside⟩).2 =
      [GeofenceEvent.entered (some "A")] := by
  have hd : haversineDistance ⟨loc0.latitude, loc0.longitude⟩ zoneAt0.center ≤
      zoneAt0.radius := by
    have hc : (⟨loc0.latitude, loc0.longitude⟩ : Coord) = zoneAt0.center := rfl
    rw [hc, haversineDistance_self]
    show (0:ℝ) ≤ zoneAt0.radius
    norm_num [zoneAt0]
  have h := (transition_events_spec loc0 [zoneAt0, zoneB0]
      ⟨Status.outside, Status.outside⟩ (by simp)).1
    [] zoneAt0 [zoneB0] rfl rfl (by intro g' hg'; simp at hg') rfl hd
  exact h

/-- C3: no evaluation whose previous status is Unknown emits an event, and the
concrete three-step sequence Inside, location lost (Unknown), Inside again
emits zero events in total. -/
theorem no_event_from_unknown :
    (∀ (loc : Option ChildLocation) (zones : List Geofence)
        (s : GeofenceState),
      s.previousGeofenceStatus = Status.unknown →
      (checkGeofenceStatus loc zones s).2 = []) ∧
      ((checkGeofenceStatus (some loc0) [zoneAt0] initialState).2 = [] ∧
        (checkGeofenceStatus (some loc0) [zoneAt0]
          initialState).1.geofenceStatus = Status.inside ∧
        (checkGeofenceStatus none [zoneAt0]
          (checkGeofenceStatus (some loc0) [zoneAt0] initialState).1).2 = [] ∧
        (checkGeofenceStatus (some loc0) [zoneAt0]
          (checkGeofenceStatus none [zoneAt0]
            (checkGeofenceStatus (some loc0) [zoneAt0]
              initialState).1).1).2 = [] ∧
        (checkGeofenceStatus (some loc0) [zoneAt0]
          (checkGeofenceStatus none [zoneAt0]
            (checkGeofenceStatus (some loc0) [zoneAt0]
              initialState).1).1).1.geofenceStatus = Status.inside) := by
  have estep : ∀ s : GeofenceState,
      checkGeofenceStatus (some loc0) [zoneAt0] s =
        (⟨Status.inside, Status.inside⟩,
          if s.previousGeofenceStatus = Status.outside then
            [GeofenceEvent.entered (some zoneAt0.name)]
          else []) := fun s =>
    checkGeofenceStatus_found loc0 [zoneAt0] s zoneAt0 (by simp)
      firstContainedZone_loc0_zoneAt0
  constructor
  · intro loc zones s hs
    cases loc with
    | none => rfl
    | some l =>
      cases zones with
      | nil => rfl
      | cons z rest =>
        cases hf : firstContainedZone l (z :: rest) with
        | some g =>
          rw [checkGeofenceStatus_found l _ s g (by simp) hf]
          simp [hs]
        | none =>
          rw [checkGeofenceStatus_notFound l _ s (by simp) hf]
          simp [hs]
  · have e1 : checkGeofenceStatus (some loc0) [zoneAt0] initialState =
        (⟨Status.inside, Status.inside⟩, []) := by
      rw [estep initialState]
      simp [initialState]
    have e2 : checkGeofenceStatus none [zoneAt0]
        (⟨Status.inside, Status.inside⟩ : GeofenceState) =
          (⟨Status.unknown, Status.unknown⟩, []) := rfl
    have e3 : checkGeofenceStatus (some loc0) [zoneAt0]
        (⟨Status.unknown, Status.unknown⟩ : GeofenceState) =
          (⟨Status.inside, Status.inside⟩, []) := by
      rw [estep ⟨Status.unknown, Status.unknown⟩]
      simp
    simp [e1, e2, e3]

/-- Witness for C3 at concrete inputs: the very first evaluation (previous
status Unknown) at a point inside the active zone emits no event. -/
theorem no_event_from_unknown_witness :
    (checkGeofenceStatus (some loc0) [zoneAt0] initialState).2 = [] :=
  no_event_from_unknown.1 (some loc0) [zoneAt0] initialState rfl

/-- C4: the previous status is unconditionally set to the newly computed
status at the end of every call, so an immediate second evaluation with the
same location and zone inputs emits no event. -/
theorem second_evaluation_silent :
    ∀ (loc : Option ChildLocation) (zones : List Geofence) (s : GeofenceState),
      (checkGeofenceStatus loc zones
        (checkGeofenceStatus loc zones s).1).2 = [] ∧
      (checkGeofenceStatus loc zones s).1.previousGeofenceStatus =
        (checkGeofenceStatus loc zones s).1.geofenceStatus := by
  intro loc zones s
  cases loc with
  | none => exact ⟨rfl, rfl⟩
  | some l =>
    cases zones with
    | nil => exact ⟨rfl, rfl⟩
    | cons z rest =>
      cases hf : firstContainedZone l (z :: rest) with
      | some g =>
        have h1 := checkGeofenceStatus_found l (z :: rest) s g (by simp) hf
        have hs1 : (checkGeofenceStatus (some l) (z :: rest) s).1 =
            ⟨Status.inside, Status.inside⟩ := by rw [h1]
        have h2 := checkGeofenceStatus_found l (z :: rest)
          (⟨Status.inside, Status.inside⟩ : GeofenceState) g (by simp) hf
        constructor
        · rw [hs1, h2]
          simp
        · rw [hs1]
      | none =>
        have h1 := checkGeofenceStatus_notFound l (z :: rest) s (by simp) hf
        have hs1 : (checkGeofenceStatus (some l) (z :: rest) s).1 =
            ⟨Status.outside, Status.outside⟩ := by rw [h1]
        have h2 := checkGeofenceStatus_notFound l (z :: rest)
          (⟨Status.outside, Status.outside⟩ : GeofenceState) (by simp) hf
        constructor
        · rw [hs1, h2]
          simp
        · rw [hs1]

/-- C6: a malformed zone with negative radius anywhere in the list never
matches the inclusive containment test (the distance is nonnegative), so its
presence changes nothing: evaluation and transition detection proceed exactly
as with the remaining zones. -/
theorem malformed_zone_skipped (loc : ChildLocation) (l1 l2 : List Geofence)
    (bad : Geofence) (s : GeofenceState) (hbad : bad.radius < 0)
    (hne : l1 ++ l2 ≠ []) :
    checkGeofenceStatus (some loc) (l1 ++ bad :: l2) s =
      checkGeofenceStatus (some loc) (l1 ++ l2) s := by
  have hf := firstContainedZone_skip_neg_radius loc l1 l2 bad hbad
  cases hf2 : firstContainedZone loc (l1 ++ l2) with
  | some g =>
    rw [checkGeofenceStatus_found loc (l1 ++ bad :: l2) s g (by simp)
        (hf.trans hf2),
      checkGeofenceStatus_found loc (l1 ++ l2) s g hne hf2]
  | none =>
    rw [checkGeofenceStatus_notFound loc (l1 ++ bad :: l2) s (by simp)
        (hf.trans hf2),
      checkGeofenceStatus_notFound loc (l1 ++ l2) s hne hf2]

/-- Witness for C6 at concrete inputs: the radius-(-5) zone `badZone0` placed
in front of the valid active zone leaves the evaluation unchanged. -/
theorem malformed_zone_skipped_witness :
    checkGeofenceStatus (some loc0) [badZone0, zoneAt0]
        ⟨Status.outside, Status.outside⟩ =
      checkGeofenceStatus (some loc0) [zoneAt0]
        ⟨Status.outside, Status.outside⟩ ∧
      badZone0.radius < 0 :=
  ⟨malformed_zone_skipped loc0 [] [zoneAt0] badZone0
      ⟨Status.outside, Status.outside⟩ (by norm_num [badZone0]) (by simp),
    by norm_num [badZone0]⟩

/-- C10: each evaluation cycle schedules at most one notification, and the
Entered and Exited branches are mutually exclusive: no call emits both. -/
theorem at_most_one_event (loc : Option ChildLocation) (zones : List Geofence)
    (s : GeofenceState) :
    (checkGeofenceStatus loc zones s).2.length ≤ 1 ∧
      ¬(GeofenceEvent.exited ∈ (checkGeofenceStatus loc zones s).2 ∧
        ∃ n, GeofenceEvent.entered n ∈ (checkGeofenceStatus loc zones s).2) := by
  cases loc with
  | none => exact ⟨by simp [checkGeofenceStatus_noLoc],
      by simp [checkGeofenceStatus_noLoc]⟩
  | some l =>
    cases zones with
    | nil => exact ⟨by simp [checkGeofenceStatus_nilZones],
        by simp [checkGeofenceStatus_nilZones]⟩
    | cons z rest =>
      cases hf : firstContainedZone l (z :: rest) with
      | some g =>
        rw [checkGeofenceStatus_found l _ s g (by simp) hf]
        constructor
        · split_ifs <;> simp
        · split_ifs <;> simp
      | none =>
        rw [checkGeofenceStatus_notFound l _ s (by simp) hf]
        constructor
        · split_ifs <;> simp
        · split_ifs <;> simp

/-- Witness for C10 at concrete inputs. -/
theorem at_most_one_event_witness :
    (checkGeofenceStatus (some loc0) [zoneAt0]
      ⟨Status.outside, Status.outside⟩).2.length ≤ 1 ∧
      ¬(GeofenceEvent.exited ∈ (checkGeofenceStatus (some loc0) [zoneAt0]
          ⟨Status.outside, Status.outside⟩).2 ∧
        ∃ n, GeofenceEvent.entered n ∈ (checkGeofenceStatus (some loc0)
          [zoneAt0] ⟨Status.outside, Status.outside⟩).2) :=
  at_most_one_event (some loc0) [zoneAt0] ⟨Status.outside, Status.outside⟩

/-- Counterexample to C7 as stated: a fetch failure is not surfaced to the
caller as a failure outcome — the `try`/`catch` swallows it and the promise
resolves normally (with a Connection-Error alert); it is never a rejection.
The membership state is indeed left unchanged, but the "surfaced to the
caller as a distinct failure outcome" part of the claim is false. -/
theorem fetch_error_resolves :
    fetchLocationAndGeofenceData (Except.error "network") appState0 =
      CycleResult.resolved
        { appState0 with
            debugInfo := "Error: network"
            loading := false
            isRefreshing := false }
        [("Connection Error",
          "Unable to retrieve data. Please check your internet connection.")]
        [] ∧
      fetchLocationAndGeofenceData (Except.error "network") appState0 ≠
        CycleResult.rejected "network" := by
  constructor
  · rfl
  · intro h
    exact CycleResult.noConfusion h

/-- C7 (amended): an external I/O failure is caught inside the cycle — the
promise resolves normally instead of propagating a failure to the caller —
and is surfaced as a Connection-Error alert plus an error debug message; the
stored location, zone list and membership state (`previousGeofenceStatus`) are
left untouched, and the failure outcome is distinct from the outcome of every
successful cycle (in particular it is never conflated with the
no-zones/no-location Unknown reset). -/
theorem fetch_error_caught_and_preserves_state :
    (∀ (e : String) (s : AppState),
      fetchLocationAndGeofenceData (Except.error e) s =
        CycleResult.resolved
          { s with
              debugInfo := "Error: " ++ e
              loading := false
              isRefreshing := false }
          [("Connection Error",
            "Unable to retrieve data. Please check your internet connection.")]
          []) ∧
      (∀ (e : String) (s : AppState)
          (i : Option ChildLocation × Option (List Geofence)) (t : AppState),
        fetchLocationAndGeofenceData (Except.error e) s ≠
          fetchLocationAndGeofenceData (Except.ok i) t) := by
  constructor
  · intro e s
    rfl
  · intro e s i t h
    rcases i with ⟨locSnap, geoSnap⟩
    cases locSnap with
    | some l =>
      simp only [fetchLocationAndGeofenceData] at h
      simp at h
    | none =>
      by_cases hl : t.loading
      · simp only [fetchLocationAndGeofenceData] at h
        rw [if_pos hl] at h
        simp at h
      · simp only [fetchLocationAndGeofenceData] at h
        rw [if_neg hl] at h
        simp at h

/-- Witness for the amended C7 at concrete inputs. -/
theorem fetch_error_caught_and_preserves_state_witness :
    fetchLocationAndGeofenceData (Except.error "boom") appState0 =
      CycleResult.resolved
        { appState0 with
            debugInfo := "Error: " ++ "boom"
            loading := false
            isRefreshing := false }
        [("Connection Error",
          "Unable to retrieve data. Please check your internet connection.")]
        [] ∧
      fetchLocationAndGeofenceData (Except.error "boom") appState0 ≠
        fetchLocationAndGeofenceData
          (Except.ok (some loc0, some [zoneAt0])) appState0 :=
  ⟨fetch_error_caught_and_preserves_state.1 "boom" appState0,
    fetch_error_caught_and_preserves_state.2 "boom" appState0
      (some loc0, some [zoneAt0]) appState0⟩

end Capstone
